import Mathlib

/-!
Verification of the API-testing-tool backend (src/main.py, src/schemas.py):
a shallow embedding of the request-proxy endpoint, the history and
collection stores, and the document normalization helpers, followed by
theorems settling the specification claims.

The outbound HTTP layer (the requests library) and wall-clock time are
modelled as explicit parameters of the proxy function; the MongoDB store
is modelled as an explicit list of documents threaded through each
operation.  The helper module database.py (create_document and
get_documents) is not part of the sources; where its behaviour decides a
claim it is modelled from the spec, and marked as such.
-/

namespace ApiTester

/-- A JSON value, as produced by decoding a response payload
(the result of resp.json() in the proxy). -/
inductive Json where
  | null : Json
  | bool (b : Bool) : Json
  | num (n : Int) : Json
  | str (s : String) : Json
  | arr (elems : List Json) : Json
  | obj (fields : List (String × Json)) : Json
deriving Repr

/-- The validated request/response body type of the pydantic models:
Optional fields of type Union of a JSON object and a raw string
(schemas.py, RequestConfig.body and RequestHistory.response_body).
A value that is neither a JSON object nor a string is rejected by
pydantic validation. -/
inductive BodyVal where
  | obj (fields : List (String × Json)) : BodyVal
  | str (s : String) : BodyVal
deriving Repr

/-- HttpMethod, the Literal enum of schemas.py: five uppercase verbs.
Pydantic validation guarantees a RequestConfig method is one of these,
so the .upper() call in proxy_request is the identity. -/
inductive HttpMethod where
  | GET | POST | PUT | DELETE | PATCH
deriving DecidableEq, Repr

/-- RequestConfig (schemas.py): the request descriptor.  Mappings are
modelled as association lists. -/
structure RequestConfig where
  url : String
  method : HttpMethod := HttpMethod.GET
  headers : List (String × String) := []
  params : List (String × String) := []
  body : Option BodyVal := none
deriving Repr

/-- ExecuteRequestBody (main.py): RequestConfig plus the save flag,
defaulting to true. -/
structure ExecuteRequestBody extends RequestConfig where
  save : Bool := true
deriving Repr

/-- The outbound call issued by requests.request in proxy_request:
method, url, headers, params, the json= argument (set from a dict body),
the data= argument (set from a string body), and the fixed timeout. -/
structure OutboundRequest where
  method : HttpMethod
  url : String
  headers : List (String × String)
  params : List (String × String)
  jsonBody : Option (List (String × Json))
  data : Option String
  timeout : Nat
deriving Repr

/-- A completed HTTP response as seen through the requests library:
status code, headers flattened to a string-to-string mapping, the raw
text, and the result of attempting JSON decoding of the payload
(some j when resp.json() succeeds with value j, none when it raises). -/
structure HttpResp where
  status : Nat
  headers : List (String × String)
  text : String
  jsonPayload : Option Json
deriving Repr

/-- Outcome of the outbound call: either a response, or a
requests.RequestException at transport level carrying its message. -/
inductive TransportResult where
  | ok (resp : HttpResp) : TransportResult
  | exn (msg : String) : TransportResult
deriving Repr

/-- The Python value bound to response_body in proxy_request before any
validation: the decoded JSON value if decoding succeeded, else the
literal response text. -/
inductive PyBody where
  | json (j : Json) : PyBody
  | text (s : String) : PyBody
deriving Repr

/-- RequestHistory (schemas.py): a stored request plus response summary. -/
structure RequestHistory where
  request : RequestConfig
  response_status : Option Nat := none
  response_time_ms : Option Int := none
  response_headers : List (String × String) := []
  response_body : Option BodyVal := none
deriving Repr

/-- The error outcomes proxy_request can raise instead of returning:
an HTTPException with a status code and detail, or a pydantic
ValidationError from constructing the RequestHistory model. -/
inductive ProxyError where
  | httpException (status : Nat) (detail : String) : ProxyError
  | validationError : ProxyError
deriving DecidableEq, Repr

/-- The JSON dict returned by proxy_request on success:
status, time_ms, headers, body. -/
structure ProxyResult where
  status : Nat
  time_ms : Int
  headers : List (String × String)
  body : PyBody
deriving Repr

/-- Python int() applied to a rational: truncation toward zero. -/
def pyInt (q : ℚ) : Int :=
  if 0 ≤ q then Int.floor q else Int.ceil q

/-- Lines 72-83 of main.py: normalize method (identity on the validated
enum), take headers and params (the x or default-empty idiom is the
identity on a mapping value), and split the optional body into the
json= argument (dict body) and the data= argument (string body, where
str applied to a string is the identity).  Absent body leaves both
arguments None, so no body is sent. -/
def buildOutbound (payload : ExecuteRequestBody) : OutboundRequest :=
  { method := payload.method
    url := payload.url
    headers := payload.headers
    params := payload.params
    jsonBody := match payload.body with
      | some (BodyVal.obj o) => some o
      | _ => none
    data := match payload.body with
      | some (BodyVal.str s) => some s
      | _ => none
    timeout := 30 }

/-- Lines 105-110 of main.py: try resp.json(), on ValueError fall back
to resp.text. -/
def mkRespBody (resp : HttpResp) : PyBody :=
  match resp.jsonPayload with
  | some j => PyBody.json j
  | none => PyBody.text resp.text

/-- Pydantic validation of the response_body value against
Optional of Union of dict and str (RequestHistory.response_body):
a dict or str passes through, Python None (decoded JSON null) is
accepted as the None default, and any other decoded value (array,
number, boolean) raises a ValidationError. -/
def validateRespBody : PyBody → Except Unit (Option BodyVal)
  | PyBody.json (Json.obj o) => Except.ok (some (BodyVal.obj o))
  | PyBody.json (Json.str s) => Except.ok (some (BodyVal.str s))
  | PyBody.json Json.null => Except.ok none
  | PyBody.json _ => Except.error ()
  | PyBody.text s => Except.ok (some (BodyVal.str s))

/-- The RequestHistory document built at lines 112-124 of main.py from
the original descriptor and the normalized outcome (rb is the validated
response_body value). -/
def historyDocOf (payload : ExecuteRequestBody) (resp : HttpResp)
    (elapsed_ms : Int) (rb : Option BodyVal) : RequestHistory :=
  { request :=
      { url := payload.url
        method := payload.method
        headers := payload.headers
        params := payload.params
        body := payload.body }
    response_status := some resp.status
    response_time_ms := some elapsed_ms
    response_headers := resp.headers
    response_body := rb }

/-- proxy_request (main.py lines 70-138).  The network is the function
net from the outbound request to a transport result; wall-clock readings
at start and after the call are startT and stopT (seconds, as in
time.time()); persistOk tells whether create_document succeeds when
called (its failure is swallowed, lines 126-131).  Returns the endpoint
outcome together with the final history store contents.  The elapsed
whole milliseconds are int of the wall-clock difference times 1000; the
RequestHistory model is constructed (hence pydantic-validated) before
the save flag is consulted. -/
def proxy_request (payload : ExecuteRequestBody)
    (net : OutboundRequest → TransportResult)
    (startT stopT : ℚ) (persistOk : Bool)
    (hist : List RequestHistory) :
    Except ProxyError ProxyResult × List RequestHistory :=
  match net (buildOutbound payload) with
  | TransportResult.exn e =>
      (Except.error (ProxyError.httpException 502 ("Request failed: " ++ e)), hist)
  | TransportResult.ok resp =>
      match validateRespBody (mkRespBody resp) with
      | Except.error _ => (Except.error ProxyError.validationError, hist)
      | Except.ok rb =>
          (Except.ok
            { status := resp.status
              time_ms := pyInt ((stopT - startT) * 1000)
              headers := resp.headers
              body := mkRespBody resp },
            if payload.save then
              if persistOk then
                hist ++ [historyDocOf payload resp (pyInt ((stopT - startT) * 1000)) rb]
              else hist
            else hist)

/-! ## Stored documents and the history / collections read paths -/

/-- A BSON ObjectId: an opaque store-generated identifier whose string
form (str in Python) is its 24-character hex rendering. -/
structure ObjectId where
  hex : String
deriving DecidableEq, Repr

/-- A datetime value as stored by the store layer; isoformat renders it
to an ISO-8601 string. -/
structure Datetime where
  year : Nat
  month : Nat
  day : Nat
  hour : Nat
  minute : Nat
  second : Nat
deriving DecidableEq, Repr

/-- Zero-pad a number to two digits, as in ISO-8601 components. -/
def pad2 (n : Nat) : String :=
  if n < 10 then "0" ++ toString n else toString n

/-- Zero-pad a number to four digits, as in ISO-8601 years. -/
def pad4 (n : Nat) : String :=
  if n < 10 then "000" ++ toString n
  else if n < 100 then "00" ++ toString n
  else if n < 1000 then "0" ++ toString n
  else toString n

/-- datetime.isoformat(): the ISO-8601 rendering. -/
def Datetime.isoformat (t : Datetime) : String :=
  pad4 t.year ++ "-" ++ pad2 t.month ++ "-" ++ pad2 t.day ++ "T" ++
    pad2 t.hour ++ ":" ++ pad2 t.minute ++ ":" ++ pad2 t.second

/-- A value of a field of a stored document, as handed back by the
store driver: strings, integers, booleans, null, datetimes (the only
values carrying an isoformat method), ObjectIds, and nested documents
and arrays. -/
inductive StoredVal where
  | str (s : String) : StoredVal
  | int (n : Int) : StoredVal
  | bool (b : Bool) : StoredVal
  | null : StoredVal
  | dateTime (t : Datetime) : StoredVal
  | objectId (o : ObjectId) : StoredVal
  | dict (fields : List (String × StoredVal)) : StoredVal
  | list (elems : List StoredVal) : StoredVal
deriving Repr

/-- A stored document: a dict from field names to stored values. -/
abbrev StoredDoc := List (String × StoredVal)

/-- Python str() applied to a stored value (used on the _id field;
in the store that field always holds an ObjectId, rendered as its hex
string). -/
def pyStr : StoredVal → String
  | StoredVal.str s => s
  | StoredVal.int n => toString n
  | StoredVal.bool b => if b then "True" else "False"
  | StoredVal.null => "None"
  | StoredVal.dateTime t => t.isoformat
  | StoredVal.objectId o => o.hex
  | StoredVal.dict _ => "dict"
  | StoredVal.list _ => "list"

/-- True exactly for the values carrying an isoformat attribute. -/
def hasIsoformat : StoredVal → Bool
  | StoredVal.dateTime _ => true
  | _ => false

/-- isoformat of a value that has it (arbitrary on others). -/
def isoformatOf : StoredVal → String
  | StoredVal.dateTime t => t.isoformat
  | v => pyStr v

/-- The normalize helper defined identically inside list_history
(main.py lines 149-156) and get_collections (lines 184-191): replace
every top-level field value carrying an isoformat attribute by its
ISO-8601 string, then, when an _id field is present, replace its value
by its str() form. -/
def normalize (doc : StoredDoc) : StoredDoc :=
  let d : StoredDoc := doc.map (fun kv =>
    if hasIsoformat kv.2 then (kv.1, StoredVal.str (isoformatOf kv.2)) else kv)
  d.map (fun kv =>
    if kv.1 = "_id" then (kv.1, StoredVal.str (pyStr kv.2)) else kv)

/-- Modelled from the spec: database.py (get_documents) is not among the
sources.  Per the spec, list for a store returns at most limit
most-recently-inserted documents in the store's natural insertion
order; the store itself is the insertion sequence, oldest first. -/
def get_documents (store : List StoredDoc) (limit : Nat) : List StoredDoc :=
  (store.reverse.take limit).reverse

/-- Modelled from the spec: the no-limit read used by get_collections
returns all documents in natural insertion order. -/
def get_documents_all (store : List StoredDoc) : List StoredDoc :=
  store

/-- list_history (main.py lines 142-158): fetch up to limit history
documents, normalize each, and reverse so the most recent comes first.
A store failure yields the empty fetch, which this function also
covers (empty store). -/
def list_history (store : List StoredDoc) (limit : Nat) : List StoredDoc :=
  ((get_documents store limit).map normalize).reverse

/-- get_collections (main.py lines 177-193): fetch all collection
documents and normalize each, in natural order. -/
def get_collections (store : List StoredDoc) : List StoredDoc :=
  (get_documents_all store).map normalize

/-! ## Collections: add-item -/

/-- CollectionItem (schemas.py): a titled saved request. -/
structure CollectionItem where
  title : String
  request : RequestConfig
deriving Repr

/-- Collection (schemas.py): a named folder of saved requests. -/
structure Collection where
  name : String
  description : Option String := none
  items : List CollectionItem := []
deriving Repr

/-- AddItemBody (main.py): the request body of POST /collections/add-item. -/
structure AddItemBody where
  collection_id : String
  title : String
  request : RequestConfig
deriving Repr

/-- Whether a character is a hexadecimal digit. -/
def isHexChar (c : Char) : Bool :=
  c.isDigit || ("abcdefABCDEF".toList.contains c)

/-- Whether bson.ObjectId accepts the string: a 24-character hex
string (otherwise the constructor raises InvalidId). -/
def isValidObjectId (s : String) : Bool :=
  s.length = 24 && s.toList.all isHexChar

/-- Mongo update_one with a $push on items: update the first document
whose _id matches, appending the new item to its items array; when no
document matches, the update matches nothing and succeeds silently. -/
def pushFirst (oid : ObjectId) (item : CollectionItem) :
    List (ObjectId × Collection) → List (ObjectId × Collection)
  | [] => []
  | (i, c) :: rest =>
      if i = oid then
        (i, { c with items := c.items ++ [item] }) :: rest
      else
        (i, c) :: pushFirst oid item rest

/-- add_item_to_collection (main.py lines 202-217): fail with a 500
when the db handle is unavailable; construct the ObjectId (raising,
caught as a 500, when the string is not a valid id); then issue the
push update, which succeeds whether or not the id matched a document.
Returns the new collection store and the success message. -/
def add_item_to_collection (db : Option (List (ObjectId × Collection)))
    (body : AddItemBody) :
    Except ProxyError (List (ObjectId × Collection) × String) :=
  match db with
  | none => Except.error (ProxyError.httpException 500 "Database not available")
  | some store =>
      if isValidObjectId body.collection_id then
        Except.ok
          (pushFirst (ObjectId.mk body.collection_id)
            (CollectionItem.mk body.title body.request) store, "Item added")
      else
        Except.error (ProxyError.httpException 500
          (body.collection_id ++ " is not a valid ObjectId"))

/-! ## Theorems for the claims -/

/-- C3: whenever the outbound call fails at transport level, POST /proxy
fails with a 502 Bad Gateway whose detail carries the underlying error
text, and the history store is unchanged, regardless of the save flag
and of whether persistence would have succeeded. -/
theorem c3_transport_failure_502_no_persist
    (payload : ExecuteRequestBody) (net : OutboundRequest → TransportResult)
    (startT stopT : ℚ) (persistOk : Bool) (hist : List RequestHistory)
    (msg : String)
    (hnet : net (buildOutbound payload) = TransportResult.exn msg) :
    proxy_request payload net startT stopT persistOk hist =
      (Except.error (ProxyError.httpException 502 ("Request failed: " ++ msg)),
        hist) := by
  unfold proxy_request
  rw [hnet]

/-- Witness for C3 at a concrete failing transport. -/
theorem c3_transport_failure_502_no_persist_witness :
    proxy_request { url := "http://unreachable.example", save := true }
      (fun _ => TransportResult.exn "connection refused") 0 1 true [] =
      (Except.error (ProxyError.httpException 502
        "Request failed: connection refused"), []) :=
  c3_transport_failure_502_no_persist _ _ _ _ _ _ "connection refused" rfl

/-- C5: the endpoint outcome of POST /proxy is independent of whether
the best-effort history persistence succeeds: with persistence failing
the caller receives exactly the result it would have received had
persistence succeeded, and no error is surfaced. -/
theorem c5_persistence_failure_swallowed
    (payload : ExecuteRequestBody) (net : OutboundRequest → TransportResult)
    (startT stopT : ℚ) (hist : List RequestHistory) :
    (proxy_request payload net startT stopT false hist).1 =
      (proxy_request payload net startT stopT true hist).1 := by
  unfold proxy_request
  cases hnet : net (buildOutbound payload) with
  | exn e => rfl
  | ok resp =>
      dsimp only
      cases hv : validateRespBody (mkRespBody resp) with
      | error u => rfl
      | ok rb => rfl

/-- C9: a dict body is forwarded as the JSON-encoded body, a string body
is forwarded as the raw data body, and an absent body sets neither, so
no body is sent on the outbound call. -/
theorem c9_body_forwarding (payload : ExecuteRequestBody) :
    ((buildOutbound payload).jsonBody =
        match payload.body with
        | some (BodyVal.obj o) => some o
        | _ => none) ∧
    ((buildOutbound payload).data =
        match payload.body with
        | some (BodyVal.str s) => some s
        | _ => none) := by
  exact ⟨rfl, rfl⟩

/-- C2 (amended): for a reachable target, provided the decoded response
payload passes the RequestHistory validation (it is a JSON object, a
JSON string, JSON null, or not JSON-parseable at all), POST /proxy
returns the status of the target response, a non-negative
whole-millisecond time, the flat response-header mapping, and a body
that is the decoded JSON value when the payload parses and the literal
response text otherwise. -/
theorem c2_proxy_success_shape
    (payload : ExecuteRequestBody) (net : OutboundRequest → TransportResult)
    (startT stopT : ℚ) (persistOk : Bool) (hist : List RequestHistory)
    (resp : HttpResp) (rb : Option BodyVal)
    (hnet : net (buildOutbound payload) = TransportResult.ok resp)
    (ht : startT ≤ stopT)
    (hv : validateRespBody (mkRespBody resp) = Except.ok rb) :
    ∃ hist2,
      proxy_request payload net startT stopT persistOk hist =
        (Except.ok
          { status := resp.status
            time_ms := pyInt ((stopT - startT) * 1000)
            headers := resp.headers
            body := mkRespBody resp }, hist2) ∧
      0 ≤ pyInt ((stopT - startT) * 1000) ∧
      (∀ j, resp.jsonPayload = some j → mkRespBody resp = PyBody.json j) ∧
      (resp.jsonPayload = none → mkRespBody resp = PyBody.text resp.text) := by
  have hq : (0 : ℚ) ≤ (stopT - startT) * 1000 := by
    have hs : (0 : ℚ) ≤ stopT - startT := by linarith
    nlinarith
  refine ⟨if payload.save then
      (if persistOk then
        hist ++ [historyDocOf payload resp (pyInt ((stopT - startT) * 1000)) rb]
      else hist) else hist, ?_, ?_, ?_, ?_⟩
  · unfold proxy_request
    rw [hnet]
    dsimp only
    rw [hv]
  · unfold pyInt
    rw [if_pos hq]
    exact Int.floor_nonneg.mpr hq
  · intro j hj
    unfold mkRespBody
    rw [hj]
  · intro hj
    unfold mkRespBody
    rw [hj]

/-- Witness for C2 at a concrete reachable JSON-object response. -/
theorem c2_proxy_success_shape_witness :
    ∃ hist2,
      proxy_request { url := "http://ok.example", save := true }
        (fun _ => TransportResult.ok
          { status := 200, headers := [("k", "v")], text := "{}",
            jsonPayload := some (Json.obj []) }) 0 1 true [] =
        (Except.ok
          { status := 200
            time_ms := pyInt (((1 : ℚ) - 0) * 1000)
            headers := [("k", "v")]
            body := mkRespBody
              { status := 200, headers := [("k", "v")], text := "{}",
                jsonPayload := some (Json.obj []) } }, hist2) ∧
      0 ≤ pyInt (((1 : ℚ) - 0) * 1000) ∧
      (∀ j, (some (Json.obj []) : Option Json) = some j →
        mkRespBody { status := 200, headers := [("k", "v")], text := "{}",
                     jsonPayload := some (Json.obj []) } = PyBody.json j) ∧
      ((some (Json.obj []) : Option Json) = none →
        mkRespBody { status := 200, headers := [("k", "v")], text := "{}",
                     jsonPayload := some (Json.obj []) } =
          PyBody.text "{}") :=
  c2_proxy_success_shape
    { url := "http://ok.example", save := true }
    (fun _ => TransportResult.ok
      { status := 200, headers := [("k", "v")], text := "{}",
        jsonPayload := some (Json.obj []) })
    0 1 true []
    { status := 200, headers := [("k", "v")], text := "{}",
      jsonPayload := some (Json.obj []) }
    (some (BodyVal.obj [])) rfl (by norm_num) rfl

/-- C2 counterexample: a reachable target answering a JSON array makes
POST /proxy raise a validation error instead of returning the
status / time / headers / body result the claim promises. -/
theorem c2_counterexample_json_array :
    (proxy_request { url := "http://arr.example", save := true }
      (fun _ => TransportResult.ok
        { status := 200, headers := [], text := "[1]",
          jsonPayload := some (Json.arr [Json.num 1]) }) 0 1 true []).1 =
      Except.error ProxyError.validationError := rfl

/-- C6: the RequestHistory model is constructed before the save flag is
consulted, so a reachable target whose payload decodes to a JSON value
that is neither an object nor a string (here an array) makes the
endpoint raise a validation error even with save set to false, and
nothing is persisted. -/
theorem c6_validation_precedes_save :
    proxy_request { url := "http://list.example", save := false }
      (fun _ => TransportResult.ok
        { status := 200, headers := [("a", "b")], text := "[]",
          jsonPayload := some (Json.arr []) }) 0 1 true [] =
      (Except.error ProxyError.validationError, []) := rfl

/-- C4: every proxy call appends at most one history record; with save
false the store is unchanged; with save true against a reachable target,
when the (best-effort) persistence succeeds and the endpoint returns a
result, exactly one record is appended, its embedded request is the
original descriptor and its response_status is the status returned to
the caller. -/
theorem c4_history_append
    (payload : ExecuteRequestBody) (net : OutboundRequest → TransportResult)
    (startT stopT : ℚ) (persistOk : Bool) (hist : List RequestHistory) :
    ((proxy_request payload net startT stopT persistOk hist).2.length ≤
        hist.length + 1) ∧
    (payload.save = false →
      (proxy_request payload net startT stopT persistOk hist).2 = hist) ∧
    (∀ res, payload.save = true → persistOk = true →
      (proxy_request payload net startT stopT persistOk hist).1 =
        Except.ok res →
      ∃ d, (proxy_request payload net startT stopT persistOk hist).2 =
          hist ++ [d] ∧
        d.request = payload.toRequestConfig ∧
        d.response_status = some res.status) := by
  unfold proxy_request
  cases hnet : net (buildOutbound payload) with
  | exn e =>
      refine ⟨by simp, fun _ => rfl, fun res hs hp hres => ?_⟩
      exact absurd hres (by simp)
  | ok resp =>
      dsimp only
      cases hv : validateRespBody (mkRespBody resp) with
      | error u =>
          refine ⟨by simp, fun _ => rfl, fun res hs hp hres => ?_⟩
          exact absurd hres (by simp)
      | ok rb =>
          refine ⟨?_, ?_, ?_⟩
          · dsimp only
            by_cases hs : payload.save = true
            · rw [if_pos hs]
              by_cases hp : persistOk = true
              · rw [if_pos hp]
                simp
              · rw [if_neg hp]
                omega
            · rw [if_neg hs]
              omega
          · intro hs
            dsimp only
            rw [hs]
            rfl
          · intro res hs hp hres
            dsimp only at hres ⊢
            rw [hs, hp, if_pos rfl, if_pos rfl]
            refine ⟨historyDocOf payload resp (pyInt ((stopT - startT) * 1000)) rb,
              rfl, rfl, ?_⟩
            have : res = { status := resp.status,
                           time_ms := pyInt ((stopT - startT) * 1000),
                           headers := resp.headers,
                           body := mkRespBody resp } := by
              cases hres
              rfl
            rw [this]
            rfl

/-- Witness for C4 at a concrete saved call. -/
theorem c4_history_append_witness :
    ∃ d, (proxy_request { url := "http://s.example", save := true }
        (fun _ => TransportResult.ok
          { status := 201, headers := [], text := "done",
            jsonPayload := none }) 0 0 true []).2 = [] ++ [d] ∧
      d.request = ({ url := "http://s.example", save := true } :
        ExecuteRequestBody).toRequestConfig ∧
      d.response_status =
        some ({ status := 201, time_ms := pyInt (((0 : ℚ) - 0) * 1000),
                headers := [], body := PyBody.text "done" } : ProxyResult).status :=
  (c4_history_append { url := "http://s.example", save := true }
    (fun _ => TransportResult.ok
      { status := 201, headers := [], text := "done", jsonPayload := none })
    0 0 true []).2.2
    { status := 201, time_ms := pyInt (((0 : ℚ) - 0) * 1000),
      headers := [], body := PyBody.text "done" }
    rfl rfl rfl

/-- The history read path in closed form: fetching with a limit and
reversing yields the map of normalize over the reversed store truncated
to the limit. -/
theorem list_history_eq (store : List StoredDoc) (limit : Nat) :
    list_history store limit = (store.reverse.take limit).map normalize := by
  simp [list_history, get_documents, List.map_reverse]

/-- C1: GET /history with limit N returns exactly the min of N and the
store size many records, and the record at position i is the normalized
document inserted at position length minus one minus i, so the result
consists of the most-recently-inserted documents, newest first. -/
theorem c1_history_limit_newest_first (store : List StoredDoc) (N : Nat) :
    (list_history store N).length = min N store.length ∧
    ∀ i, i < min N store.length →
      (list_history store N)[i]? =
        (store[store.length - 1 - i]?).map normalize := by
  constructor
  · rw [list_history_eq]
    simp
  · intro i hi
    rw [list_history_eq]
    rw [List.getElem?_map]
    rw [List.getElem?_take_of_lt (lt_of_lt_of_le hi (min_le_left _ _))]
    rw [List.getElem?_reverse
      (by simpa using lt_of_lt_of_le hi (min_le_right _ _))]

/-- Witness for C1 on a two-document store with limit one. -/
theorem c1_history_limit_newest_first_witness :
    (list_history [[("n", StoredVal.int 1)], [("n", StoredVal.int 2)]] 1).length =
      min 1 2 ∧
    (list_history [[("n", StoredVal.int 1)], [("n", StoredVal.int 2)]] 1)[0]? =
      (([[("n", StoredVal.int 1)], [("n", StoredVal.int 2)]] :
          List StoredDoc)[2 - 1 - 0]?).map normalize :=
  ⟨(c1_history_limit_newest_first
      [[("n", StoredVal.int 1)], [("n", StoredVal.int 2)]] 1).1,
    (c1_history_limit_newest_first
      [[("n", StoredVal.int 1)], [("n", StoredVal.int 2)]] 1).2 0 (by decide)⟩

/-- C7: every document returned by GET /history or GET /collections is
the normalization of a stored document, and normalization keeps the
shape of the document (same length, same field at each position) while
rendering every timestamp-valued field to its ISO-8601 string, rendering
the store-generated _id field (an ObjectId) to its string form, and
leaving every other field untouched. -/
theorem c7_normalization :
    (∀ doc : StoredDoc, (normalize doc).length = doc.length) ∧
    (∀ (doc : StoredDoc) (i : Nat) (k : String) (v : StoredVal),
      doc[i]? = some (k, v) →
      (∀ t, v = StoredVal.dateTime t → k ≠ "_id" →
        (normalize doc)[i]? = some (k, StoredVal.str t.isoformat)) ∧
      (∀ o, v = StoredVal.objectId o → k = "_id" →
        (normalize doc)[i]? = some (k, StoredVal.str o.hex)) ∧
      (hasIsoformat v = false → k ≠ "_id" →
        (normalize doc)[i]? = some (k, v))) ∧
    (∀ (store : List StoredDoc) (N : Nat) (x : StoredDoc),
      x ∈ list_history store N → ∃ d ∈ store, x = normalize d) ∧
    (∀ (store : List StoredDoc) (x : StoredDoc),
      x ∈ get_collections store → ∃ d ∈ store, x = normalize d) := by
  refine ⟨?_, ?_, ?_, ?_⟩
  · intro doc
    unfold normalize
    simp
  · intro doc i k v hget
    have hmap : (normalize doc)[i]? =
        (doc[i]?).map ((fun kv : String × StoredVal =>
            if kv.1 = "_id" then (kv.1, StoredVal.str (pyStr kv.2)) else kv) ∘
          (fun kv : String × StoredVal =>
            if hasIsoformat kv.2 then (kv.1, StoredVal.str (isoformatOf kv.2))
            else kv)) := by
      unfold normalize
      rw [List.map_map, List.getElem?_map]
    rw [hget] at hmap
    refine ⟨?_, ?_, ?_⟩
    · intro t hv hk
      subst hv
      rw [hmap]
      simp [hasIsoformat, isoformatOf, hk]
    · intro o hv hk
      subst hv
      subst hk
      rw [hmap]
      simp [hasIsoformat, pyStr]
    · intro hiso hk
      rw [hmap]
      simp [hiso, hk]
  · intro store N x hx
    rw [list_history_eq] at hx
    rcases List.mem_map.mp hx with ⟨d, hd, hdx⟩
    exact ⟨d, List.mem_reverse.mp (List.mem_of_mem_take hd), hdx.symm⟩
  · intro store x hx
    rcases List.mem_map.mp hx with ⟨d, hd, hdx⟩
    exact ⟨d, hd, hdx.symm⟩

/-- Witness for C7 on a concrete document holding an identifier, a
timestamp and a plain field. -/
theorem c7_normalization_witness :
    (normalize [("_id", StoredVal.objectId (ObjectId.mk "0123456789abcdef01234567")),
      ("created_at", StoredVal.dateTime (Datetime.mk 2024 5 7 12 30 9)),
      ("note", StoredVal.str "keep")])[1]? =
      some ("created_at", StoredVal.str
        (Datetime.mk 2024 5 7 12 30 9).isoformat) :=
  ((c7_normalization.2.1
    [("_id", StoredVal.objectId (ObjectId.mk "0123456789abcdef01234567")),
      ("created_at", StoredVal.dateTime (Datetime.mk 2024 5 7 12 30 9)),
      ("note", StoredVal.str "keep")]
    1 "created_at" (StoredVal.dateTime (Datetime.mk 2024 5 7 12 30 9))
    rfl).1 (Datetime.mk 2024 5 7 12 30 9) rfl (by decide))

/-- A push update whose filter matches no document leaves the
collection store unchanged. -/
theorem pushFirst_no_match (oid : ObjectId) (item : CollectionItem) :
    ∀ store : List (ObjectId × Collection),
      (∀ e ∈ store, e.1 ≠ oid) → pushFirst oid item store = store := by
  intro store
  induction store with
  | nil => intro _; rfl
  | cons hd tl ih =>
      intro h
      obtain ⟨i, c⟩ := hd
      have hne : i ≠ oid := h (i, c) (List.mem_cons_self _ _)
      simp only [pushFirst]
      rw [if_neg hne, ih (fun e he => h e (List.mem_cons_of_mem _ he))]

/-- A push update on a store whose first match is the entry after pre
appends the item there and leaves everything else unchanged. -/
theorem pushFirst_first_match (oid : ObjectId) (item : CollectionItem)
    (c : Collection) (post : List (ObjectId × Collection)) :
    ∀ pre : List (ObjectId × Collection), (∀ e ∈ pre, e.1 ≠ oid) →
      pushFirst oid item (pre ++ (oid, c) :: post) =
        pre ++ (oid, { c with items := c.items ++ [item] }) :: post := by
  intro pre
  induction pre with
  | nil =>
      intro _
      rw [List.nil_append, List.nil_append]
      simp only [pushFirst]
      rw [if_pos trivial]
  | cons hd tl ih =>
      intro h
      obtain ⟨i, cc⟩ := hd
      have hne : i ≠ oid := h (i, cc) (List.mem_cons_self _ _)
      rw [List.cons_append, List.cons_append]
      simp only [pushFirst]
      rw [if_neg hne, ih (fun e he => h e (List.mem_cons_of_mem _ he))]

/-- C8 counterexample: with the store reachable and a well-formed
identifier that resolves to no Collection, POST /collections/add-item
reports success instead of failing with a not-found or unavailable
condition. -/
theorem c8_counterexample_silent_success :
    add_item_to_collection (some [])
      { collection_id := "0123456789abcdef01234567", title := "Ping",
        request := { url := "http://t.example" } } =
      Except.ok ([], "Item added") := rfl

/-- C8 (amended): the operation fails with a server error when the
store handle is unavailable and when the identifier is not a
well-formed ObjectId; a well-formed identifier that resolves to no
stored Collection is a silent no-op that reports success with the
store unchanged. -/
theorem c8_unavailable_or_unresolved
    (db : Option (List (ObjectId × Collection))) (body : AddItemBody) :
    (db = none →
      add_item_to_collection db body =
        Except.error (ProxyError.httpException 500 "Database not available")) ∧
    (∀ store, db = some store →
      isValidObjectId body.collection_id = false →
      add_item_to_collection db body =
        Except.error (ProxyError.httpException 500
          (body.collection_id ++ " is not a valid ObjectId"))) ∧
    (∀ store, db = some store →
      isValidObjectId body.collection_id = true →
      (∀ e ∈ store, e.1 ≠ ObjectId.mk body.collection_id) →
      add_item_to_collection db body = Except.ok (store, "Item added")) := by
  refine ⟨?_, ?_, ?_⟩
  · intro hdb
    rw [hdb]
    rfl
  · intro store hdb hbad
    rw [hdb]
    unfold add_item_to_collection
    dsimp only
    rw [hbad]
    rfl
  · intro store hdb hok hnores
    rw [hdb]
    unfold add_item_to_collection
    dsimp only
    rw [hok, pushFirst_no_match (ObjectId.mk body.collection_id)
      (CollectionItem.mk body.title body.request) store hnores]
    rfl

/-- Witness for C8 (amended): a well-formed unresolved identifier on a
one-collection store succeeds silently without touching the store. -/
theorem c8_unavailable_or_unresolved_witness :
    add_item_to_collection
      (some [(ObjectId.mk "aaaaaaaaaaaaaaaaaaaaaaaa",
        { name := "Smoke Tests" })])
      { collection_id := "0123456789abcdef01234567", title := "Ping",
        request := { url := "http://t.example" } } =
      Except.ok ([(ObjectId.mk "aaaaaaaaaaaaaaaaaaaaaaaa",
        { name := "Smoke Tests" })], "Item added") :=
  (c8_unavailable_or_unresolved
    (some [(ObjectId.mk "aaaaaaaaaaaaaaaaaaaaaaaa", { name := "Smoke Tests" })])
    { collection_id := "0123456789abcdef01234567", title := "Ping",
      request := { url := "http://t.example" } }).2.2
    [(ObjectId.mk "aaaaaaaaaaaaaaaaaaaaaaaa", { name := "Smoke Tests" })]
    rfl (by decide) (by decide)

/-- C10: a successful add-item on an existing collection appends
exactly one item carrying the submitted title and descriptor to that
collection's items, keeps all prior items in their original order,
keeps the collection's name, description and identifier, and leaves
every other stored collection untouched. -/
theorem c10_add_item_appends
    (body : AddItemBody) (pre post : List (ObjectId × Collection))
    (c : Collection)
    (hvalid : isValidObjectId body.collection_id = true)
    (hpre : ∀ e ∈ pre, e.1 ≠ ObjectId.mk body.collection_id) :
    add_item_to_collection
      (some (pre ++ (ObjectId.mk body.collection_id, c) :: post)) body =
      Except.ok (pre ++ (ObjectId.mk body.collection_id,
        { c with items :=
            c.items ++ [CollectionItem.mk body.title body.request] }) :: post,
        "Item added") := by
  unfold add_item_to_collection
  dsimp only
  rw [hvalid, pushFirst_first_match (ObjectId.mk body.collection_id)
    (CollectionItem.mk body.title body.request) c post pre hpre]
  rfl

/-- Witness for C10: appending to a collection that already holds one
item keeps it and adds the new one after it. -/
theorem c10_add_item_appends_witness :
    add_item_to_collection
      (some [(ObjectId.mk "0123456789abcdef01234567",
        { name := "Folder", description := some "d",
          items := [CollectionItem.mk "Old" { url := "http://old.example" }] })])
      { collection_id := "0123456789abcdef01234567", title := "Ping",
        request := { url := "http://new.example" } } =
      Except.ok ([(ObjectId.mk "0123456789abcdef01234567",
        { name := "Folder", description := some "d",
          items := [CollectionItem.mk "Old" { url := "http://old.example" },
            CollectionItem.mk "Ping" { url := "http://new.example" }] })],
        "Item added") :=
  c10_add_item_appends
    { collection_id := "0123456789abcdef01234567", title := "Ping",
      request := { url := "http://new.example" } }
    [] []
    { name := "Folder", description := some "d",
      items := [CollectionItem.mk "Old" { url := "http://old.example" }] }
    (by decide) (by decide)

end ApiTester
